import Mathlib

/-
Verification of the AlgoEase bounty contract
(src/AlgoEase/contracts/algoease_bounty_contract.py).

The contract stores one variable-length byte record per bounty in a box
keyed by "bounty_" ++ itob(bounty_id), plus one global counter
`bounty_count`.  We embed the byte-level semantics faithfully:

  * boxes are byte lists; `op.Box.extract` / the offset form of
    `op.Box.put` (AVM `box_replace`) fail when the accessed range runs
    past the end of the box, exactly as on the AVM;
  * `op.itob` produces the 8-byte big-endian encoding of a uint64;
    `op.btoi` is the big-endian value of a byte string;
  * `op.Box.length` is read by the source as an (exists, size) pair and
    a missing box aborts with "Bounty not found";
  * inner payments (`itxn.Payment(...).submit()`) are modelled by a
    `transferOk` flag: a failed inner transaction aborts the whole
    application call, and the surrounding all-or-nothing execution of
    the AVM rolls every state write back, so each operation is a pure
    function from the pre-state to `Except Err (state, payment)`.

Assertion messages are mapped to the error taxonomy of the spec
(`NotFound`, `InvalidState`, `DeadlineExpired`, `DeadlineNotExpired`,
`SelfDealing`, `Unauthorized`, `InvalidFunding`, `TransferFailed`);
out-of-range box accesses and uint64 overflow, which abort on the AVM,
get their own `outOfBounds` / `overflow` codes.
-/

namespace AlgoEase

def UINT64_MOD : Nat := 2 ^ 64

/-- `op.itob`: 8-byte big-endian encoding of a uint64 value. -/
def itob (n : Nat) : List Nat :=
  let m := n % UINT64_MOD
  [m / 2 ^ 56 % 256, m / 2 ^ 48 % 256, m / 2 ^ 40 % 256, m / 2 ^ 32 % 256,
   m / 2 ^ 24 % 256, m / 2 ^ 16 % 256, m / 2 ^ 8 % 256, m % 256]

/-- `op.btoi`: big-endian value of a byte string. -/
def btoi (bs : List Nat) : Nat :=
  bs.foldl (fun a b => 256 * a + b) 0

/-- `op.bzero(32)`: the 32-byte zero address. -/
def zero32 : List Nat := List.replicate 32 0

/-- `op.Box.extract box start len` (in-range part; every caller guards the range). -/
def ext (bs : List Nat) (start len : Nat) : List Nat :=
  (bs.drop start).take len

/-- AVM `box_replace`: overwrite `v.length` bytes at `start`; fails when the
write would run past the end of the box. -/
def boxReplace (bs : List Nat) (start : Nat) (v : List Nat) : Option (List Nat) :=
  if start + v.length ≤ bs.length then
    some (bs.take start ++ v ++ bs.drop (start + v.length))
  else
    none

/-- A sequence of `box_replace` writes, aborting at the first failure. -/
def replaceSeq : List Nat → List (Nat × List Nat) → Option (List Nat)
  | box, [] => some box
  | box, (off, v) :: rest =>
    match boxReplace box off v with
    | none => none
    | some b => replaceSeq b rest

/-- Box storage: association list from box name (bytes) to contents (bytes). -/
abbrev Boxes := List (List Nat × List Nat)

def getBox : Boxes → List Nat → Option (List Nat)
  | [], _ => none
  | (n, b) :: rest, name => if n = name then some b else getBox rest name

def setBox : Boxes → List Nat → List Nat → Boxes
  | [], name, v => [(name, v)]
  | (n, b) :: rest, name, v =>
    if n = name then (n, v) :: rest else (n, b) :: setBox rest name v

/-- The bytes of the string "bounty_". -/
def bountyTag : List Nat := [98, 111, 117, 110, 116, 121, 95]

/-- Box name derivation: `"bounty_" ++ op.itob(bounty_id)`. -/
def boxName (id : Nat) : List Nat := bountyTag ++ itob id

-- Status constants of the source.
def STATUS_OPEN : Nat := 0
def STATUS_ACCEPTED : Nat := 1
def STATUS_SUBMITTED : Nat := 2
def STATUS_APPROVED : Nat := 3
def STATUS_CLAIMED : Nat := 4
def STATUS_REJECTED : Nat := 5
def STATUS_REFUNDED : Nat := 6

inductive Err where
  | notFound
  | invalidState
  | deadlineExpired
  | deadlineNotExpired
  | deadlineNotFuture
  | invalidFunding
  | invalidSender
  | selfDealing
  | unauthorized
  | invalidAmount
  | transferFailed
  | outOfBounds
  | overflow
deriving DecidableEq, Repr

/-- One inner payment issued from the escrow (fee is always 0 in the source). -/
structure Payment where
  receiver : List Nat
  amount : Nat
  fee : Nat
deriving DecidableEq, Repr

/-- Global contract state: the `bounty_count` global and the box store. -/
structure ContractState where
  bounty_count : Nat
  boxes : Boxes
deriving DecidableEq, Repr

/-- `__init__`: the counter starts at 0 and no box exists. -/
def initState : ContractState := { bounty_count := 0, boxes := [] }

/-- Per-call environment: `Txn.sender` and `Global.latest_timestamp`. -/
structure Env where
  sender : List Nat
  now : Nat
deriving DecidableEq, Repr

/-- Arguments and transaction-group context of a `create_bounty` call. -/
structure CreateCtx where
  groupSize : Nat
  groupIndex : Nat
  paySender : List Nat
  payReceiver : List Nat
  payAmount : Nat
  appAddr : List Nat
  sender : List Nat
  now : Nat
  verifier : List Nat
  deadline : Nat
  taskDesc : List Nat
deriving DecidableEq, Repr

/-- AVM `box_create`: returns the box to write into — a zero-filled fresh
box, or the existing contents when a box of the same name and size already
exists; aborts when the existing size differs. -/
def createBox (boxes : Boxes) (name : List Nat) (box_size : Nat) :
    Except Err (List Nat) :=
  match getBox boxes name with
  | some old => if old.length = box_size then .ok old else .error .outOfBounds
  | none => .ok (List.replicate box_size 0)

/-- `create_bounty`: checks the group shape and funding, allocates the next
id, creates the box and writes the record fields at their offsets, in the
order of the source. -/
def create_bounty (s : ContractState) (c : CreateCtx) :
    Except Err (ContractState × Nat) :=
  if c.groupSize = 2 then
    if c.groupIndex = 1 then
      if c.payReceiver = c.appAddr then
        if c.paySender = c.sender then
          if 0 < c.payAmount then
            if c.now < c.deadline then
              if s.bounty_count + 1 < UINT64_MOD then
                let bounty_id := s.bounty_count
                let name := boxName bounty_id
                let box_size := 113 + c.taskDesc.length
                match createBox s.boxes name box_size with
                | .error e => .error e
                | .ok b0 =>
                  match replaceSeq b0
                      [(0, c.sender), (32, zero32), (64, c.verifier),
                       (96, itob c.payAmount), (104, itob c.deadline),
                       (112, itob STATUS_OPEN), (113, c.taskDesc)] with
                  | none => .error .outOfBounds
                  | some bF =>
                    .ok ({ bounty_count := s.bounty_count + 1,
                           boxes := setBox s.boxes name bF }, bounty_id)
              else .error .overflow
            else .error .deadlineNotFuture
          else .error .invalidFunding
        else .error .invalidFunding
      else .error .invalidFunding
    else .error .invalidFunding
  else .error .invalidFunding

/-- `accept_bounty`: freelancer commitment.  Reads client, deadline and the
one-byte status, checks OPEN, deadline, non-zero sender, self-dealing, then
writes the freelancer address and `itob(STATUS_ACCEPTED)` at offset 112. -/
def accept_bounty (s : ContractState) (env : Env) (id : Nat) :
    Except Err ContractState :=
  match getBox s.boxes (boxName id) with
  | none => .error .notFound
  | some box =>
    if 113 ≤ box.length then
      let client := ext box 0 32
      let deadline := btoi (ext box 104 8)
      let status := btoi (ext box 112 1)
      if status = STATUS_OPEN then
        if env.now < deadline then
          if env.sender ≠ zero32 then
            if env.sender ≠ client then
              match boxReplace box 32 env.sender with
              | none => .error .outOfBounds
              | some b1 =>
                match boxReplace b1 112 (itob STATUS_ACCEPTED) with
                | none => .error .outOfBounds
                | some b2 => .ok { s with boxes := setBox s.boxes (boxName id) b2 }
            else .error .selfDealing
          else .error .invalidSender
        else .error .deadlineExpired
      else .error .invalidState
    else .error .outOfBounds

/-- `submit_bounty`: work submission by the assigned freelancer. -/
def submit_bounty (s : ContractState) (env : Env) (id : Nat) :
    Except Err ContractState :=
  match getBox s.boxes (boxName id) with
  | none => .error .notFound
  | some box =>
    if 113 ≤ box.length then
      let freelancer := ext box 32 32
      let status := btoi (ext box 112 1)
      if status = STATUS_ACCEPTED then
        if env.sender = freelancer then
          match boxReplace box 112 (itob STATUS_SUBMITTED) with
          | none => .error .outOfBounds
          | some b1 => .ok { s with boxes := setBox s.boxes (boxName id) b1 }
        else .error .unauthorized
      else .error .invalidState
    else .error .outOfBounds

/-- `approve_bounty`: approval by creator or verifier; funds stay in escrow. -/
def approve_bounty (s : ContractState) (env : Env) (id : Nat) :
    Except Err ContractState :=
  match getBox s.boxes (boxName id) with
  | none => .error .notFound
  | some box =>
    if 113 ≤ box.length then
      let client := ext box 0 32
      let verifier := ext box 64 32
      let status := btoi (ext box 112 1)
      if status = STATUS_SUBMITTED then
        if env.sender = client ∨ env.sender = verifier then
          match boxReplace box 112 (itob STATUS_APPROVED) with
          | none => .error .outOfBounds
          | some b1 => .ok { s with boxes := setBox s.boxes (boxName id) b1 }
        else .error .unauthorized
      else .error .invalidState
    else .error .outOfBounds

/-- `reject_bounty`: rejection by creator or verifier, with an immediate
refund payment to the client.  `transferOk` is the fate of the inner
payment; its failure aborts the whole call. -/
def reject_bounty (s : ContractState) (env : Env) (transferOk : Bool)
    (id : Nat) : Except Err (ContractState × Payment) :=
  match getBox s.boxes (boxName id) with
  | none => .error .notFound
  | some box =>
    if 113 ≤ box.length then
      let client := ext box 0 32
      let verifier := ext box 64 32
      let amount := btoi (ext box 96 8)
      let status := btoi (ext box 112 1)
      if status = STATUS_SUBMITTED ∨ status = STATUS_ACCEPTED then
        if env.sender = client ∨ env.sender = verifier then
          if 0 < amount then
            match boxReplace box 112 (itob STATUS_REJECTED) with
            | none => .error .outOfBounds
            | some b1 =>
              if transferOk then
                .ok ({ s with boxes := setBox s.boxes (boxName id) b1 },
                     { receiver := client, amount := amount, fee := 0 })
              else .error .transferFailed
          else .error .invalidAmount
        else .error .unauthorized
      else .error .invalidState
    else .error .outOfBounds

/-- `claim_bounty`: the freelancer pulls the payment of an approved bounty. -/
def claim_bounty (s : ContractState) (env : Env) (transferOk : Bool)
    (id : Nat) : Except Err (ContractState × Payment) :=
  match getBox s.boxes (boxName id) with
  | none => .error .notFound
  | some box =>
    if 113 ≤ box.length then
      let freelancer := ext box 32 32
      let amount := btoi (ext box 96 8)
      let status := btoi (ext box 112 1)
      if status = STATUS_APPROVED then
        if env.sender = freelancer then
          if 0 < amount then
            match boxReplace box 112 (itob STATUS_CLAIMED) with
            | none => .error .outOfBounds
            | some b1 =>
              if transferOk then
                .ok ({ s with boxes := setBox s.boxes (boxName id) b1 },
                     { receiver := freelancer, amount := amount, fee := 0 })
              else .error .transferFailed
          else .error .invalidAmount
        else .error .unauthorized
      else .error .invalidState
    else .error .outOfBounds

/-- `refund_bounty`: manual pre-deadline refund by creator or verifier. -/
def refund_bounty (s : ContractState) (env : Env) (transferOk : Bool)
    (id : Nat) : Except Err (ContractState × Payment) :=
  match getBox s.boxes (boxName id) with
  | none => .error .notFound
  | some box =>
    if 113 ≤ box.length then
      let client := ext box 0 32
      let verifier := ext box 64 32
      let amount := btoi (ext box 96 8)
      let deadline := btoi (ext box 104 8)
      let status := btoi (ext box 112 1)
      if status ≠ STATUS_CLAIMED then
        if status ≠ STATUS_REFUNDED then
          if status ≠ STATUS_REJECTED then
            if env.now < deadline then
              if env.sender = client ∨ env.sender = verifier then
                if 0 < amount then
                  match boxReplace box 112 (itob STATUS_REFUNDED) with
                  | none => .error .outOfBounds
                  | some b1 =>
                    if transferOk then
                      .ok ({ s with boxes := setBox s.boxes (boxName id) b1 },
                           { receiver := client, amount := amount, fee := 0 })
                    else .error .transferFailed
                else .error .invalidAmount
              else .error .unauthorized
            else .error .deadlineExpired
          else .error .invalidState
        else .error .invalidState
      else .error .invalidState
    else .error .outOfBounds

/-- `auto_refund`: post-deadline refund, callable by anyone. -/
def auto_refund (s : ContractState) (env : Env) (transferOk : Bool)
    (id : Nat) : Except Err (ContractState × Payment) :=
  match getBox s.boxes (boxName id) with
  | none => .error .notFound
  | some box =>
    if 113 ≤ box.length then
      let client := ext box 0 32
      let amount := btoi (ext box 96 8)
      let deadline := btoi (ext box 104 8)
      let status := btoi (ext box 112 1)
      if status ≠ STATUS_CLAIMED then
        if status ≠ STATUS_REFUNDED then
          if status ≠ STATUS_REJECTED then
            if deadline ≤ env.now then
              if 0 < amount then
                match boxReplace box 112 (itob STATUS_REFUNDED) with
                | none => .error .outOfBounds
                | some b1 =>
                  if transferOk then
                    .ok ({ s with boxes := setBox s.boxes (boxName id) b1 },
                         { receiver := client, amount := amount, fee := 0 })
                  else .error .transferFailed
              else .error .invalidAmount
            else .error .deadlineNotExpired
          else .error .invalidState
        else .error .invalidState
      else .error .invalidState
    else .error .outOfBounds

/-- The tuple returned by `get_bounty_info`. -/
structure BountyInfo where
  client : List Nat
  freelancer : List Nat
  verifier : List Nat
  amount : Nat
  deadline : Nat
  status : Nat
  task_description : List Nat
deriving DecidableEq, Repr

/-- `get_bounty_info`: decodes every field of the record at its offset;
the description is the tail beyond the 113 fixed bytes. -/
def get_bounty_info (s : ContractState) (id : Nat) : Except Err BountyInfo :=
  match getBox s.boxes (boxName id) with
  | none => .error .notFound
  | some box =>
    if 113 ≤ box.length then
      .ok { client := ext box 0 32
            freelancer := ext box 32 32
            verifier := ext box 64 32
            amount := btoi (ext box 96 8)
            deadline := btoi (ext box 104 8)
            status := btoi (ext box 112 1)
            task_description := ext box 113 (box.length - 113) }
    else .error .outOfBounds

/-- `get_bounty_count`: a pure read of the counter; it never fails. -/
def get_bounty_count (s : ContractState) : Nat := s.bounty_count

/-- The state observed by the caller after an operation: the new state on
success, the unchanged pre-state on any abort (the AVM rolls every write of
an aborted call back). -/
def stateOf (s : ContractState) :
    Except Err (ContractState × Payment) → ContractState
  | .ok r => r.1
  | .error _ => s

/-- Run a list of `create_bounty` calls in order, collecting the returned
ids; `none` when any call fails. -/
def runCreates : ContractState → List CreateCtx → Option (ContractState × List Nat)
  | s, [] => some (s, [])
  | s, c :: rest =>
    match create_bounty s c with
    | .error _ => none
    | .ok (s2, id) =>
      match runCreates s2 rest with
      | none => none
      | some (s3, ids) => some (s3, id :: ids)

/-- The stored one-byte status field of a record (offset 112). -/
def statusOf (s : ContractState) (id : Nat) : Option Nat :=
  (getBox s.boxes (boxName id)).map fun b => btoi (ext b 112 1)

/-- The stored freelancer field of a record (offsets 32..63). -/
def freelancerOf (s : ContractState) (id : Nat) : Option (List Nat) :=
  (getBox s.boxes (boxName id)).map fun b => ext b 32 32

/-- The stored task-description bytes of a record (offset 113 onward). -/
def taskOf (s : ContractState) (id : Nat) : Option (List Nat) :=
  (getBox s.boxes (boxName id)).map fun b => ext b 113 (b.length - 113)

-- A concrete scenario used by the counterexample and witness theorems:
-- escrow address `addrA`, client `addrC`, verifier `addrV`, worker `addrW`.

def addrA : List Nat := List.replicate 32 10
def addrC : List Nat := List.replicate 32 1
def addrV : List Nat := List.replicate 32 2
def addrW : List Nat := List.replicate 32 3

/-- A 7-byte task description ("ABCDEFG"). -/
def desc7 : List Nat := [65, 66, 67, 68, 69, 70, 71]

/-- A valid `create_bounty` call: correctly grouped funding of 5 from the
client to the escrow, deadline 100, current time 10. -/
def ctx0 : CreateCtx :=
  { groupSize := 2, groupIndex := 1, paySender := addrC, payReceiver := addrA,
    payAmount := 5, appAddr := addrA, sender := addrC, now := 10,
    verifier := addrV, deadline := 100, taskDesc := desc7 }

/-- The same call with an empty task description. -/
def ctxEmpty : CreateCtx := { ctx0 with taskDesc := [] }

/-- State after `create_bounty initState ctx0` (bounty id 0). -/
def afterCreate : ContractState :=
  match create_bounty initState ctx0 with
  | .ok r => r.1
  | .error _ => initState

/-- State after a manual refund of bounty 0 by the client at time 20. -/
def afterRefund : ContractState :=
  match refund_bounty afterCreate ⟨addrC, 20⟩ true 0 with
  | .ok r => r.1
  | .error _ => afterCreate

/-- State after the worker accepts bounty 0 at time 40 (from `afterCreate`). -/
def afterAccept : ContractState :=
  match accept_bounty afterCreate ⟨addrW, 40⟩ 0 with
  | .ok r => r
  | .error _ => afterCreate

/-- State after the worker accepts bounty 0 at time 40 from `afterRefund`. -/
def afterRefundAccept : ContractState :=
  match accept_bounty afterRefund ⟨addrW, 40⟩ 0 with
  | .ok r => r
  | .error _ => afterRefund

/-- A stored record whose status byte is `STATUS_SUBMITTED`, written in the
documented layout (client, freelancer, verifier, amount 5, deadline 100). -/
def boxSub : List Nat :=
  addrC ++ addrW ++ addrV ++ itob 5 ++ itob 100 ++ [STATUS_SUBMITTED] ++ desc7

/-- A stored record whose status byte is `STATUS_APPROVED`. -/
def boxApp : List Nat :=
  addrC ++ addrW ++ addrV ++ itob 5 ++ itob 100 ++ [STATUS_APPROVED] ++ desc7

/-- A stored record whose status byte is `STATUS_ACCEPTED`. -/
def boxAcc : List Nat :=
  addrC ++ addrW ++ addrV ++ itob 5 ++ itob 100 ++ [STATUS_ACCEPTED] ++ desc7

/-- A state holding the `SUBMITTED` record as bounty 0. -/
def sSub : ContractState := { bounty_count := 1, boxes := [(boxName 0, boxSub)] }

/-- A state holding the `APPROVED` record as bounty 0. -/
def sApp : ContractState := { bounty_count := 1, boxes := [(boxName 0, boxApp)] }

/-- A state holding the `ACCEPTED` record as bounty 0. -/
def sAcc : ContractState := { bounty_count := 1, boxes := [(boxName 0, boxAcc)] }

/-- State after `auto_refund` of the submitted record at time 100. -/
def sSubAfter : ContractState :=
  match auto_refund sSub ⟨addrW, 100⟩ true 0 with
  | .ok r => r.1
  | .error _ => sSub

/-- The escrow payment of 5 to the client. -/
def payC5 : Payment := { receiver := addrC, amount := 5, fee := 0 }

/-- The record bytes stored for bounty 0 right after `create_bounty initState
ctx0`: the fixed fields, the status byte 0, and the description bytes. -/
def boxAC : List Nat :=
  addrC ++ zero32 ++ addrV ++ itob 5 ++ itob 100 ++ [STATUS_OPEN] ++ desc7

end AlgoEase

set_option maxRecDepth 40000

namespace AlgoEase

/-- Inverting a successful `create_bounty`: the returned id is the
pre-increment counter and the counter advances by exactly one. -/
theorem create_bounty_count (s : ContractState) (c : CreateCtx)
    (s2 : ContractState) (id : Nat)
    (h : create_bounty s c = .ok (s2, id)) :
    id = s.bounty_count ∧ s2.bounty_count = s.bounty_count + 1 := by
  unfold create_bounty at h
  simp only [] at h
  repeat' split at h
  any_goals exact Except.noConfusion h
  injection h with h'
  injection h' with h1 h2
  subst h1; subst h2
  exact ⟨rfl, rfl⟩

/-- A successful `accept_bounty` leaves the counter unchanged. -/
theorem accept_bounty_count (s : ContractState) (env : Env) (id : Nat)
    (s2 : ContractState) (h : accept_bounty s env id = .ok s2) :
    s2.bounty_count = s.bounty_count := by
  unfold accept_bounty at h
  simp only [] at h
  repeat' split at h
  any_goals exact Except.noConfusion h
  injection h with h1
  subst h1; rfl

/-- A successful `submit_bounty` leaves the counter unchanged. -/
theorem submit_bounty_count (s : ContractState) (env : Env) (id : Nat)
    (s2 : ContractState) (h : submit_bounty s env id = .ok s2) :
    s2.bounty_count = s.bounty_count := by
  unfold submit_bounty at h
  simp only [] at h
  repeat' split at h
  any_goals exact Except.noConfusion h
  injection h with h1
  subst h1; rfl

/-- A successful `approve_bounty` leaves the counter unchanged. -/
theorem approve_bounty_count (s : ContractState) (env : Env) (id : Nat)
    (s2 : ContractState) (h : approve_bounty s env id = .ok s2) :
    s2.bounty_count = s.bounty_count := by
  unfold approve_bounty at h
  simp only [] at h
  repeat' split at h
  any_goals exact Except.noConfusion h
  injection h with h1
  subst h1; rfl

/-- A successful `reject_bounty` leaves the counter unchanged. -/
theorem reject_bounty_count (s : ContractState) (env : Env) (tOk : Bool)
    (id : Nat) (r : ContractState × Payment)
    (h : reject_bounty s env tOk id = .ok r) :
    r.1.bounty_count = s.bounty_count := by
  unfold reject_bounty at h
  simp only [] at h
  repeat' split at h
  any_goals exact Except.noConfusion h
  injection h with h1
  subst h1; rfl

/-- A successful `claim_bounty` leaves the counter unchanged. -/
theorem claim_bounty_count (s : ContractState) (env : Env) (tOk : Bool)
    (id : Nat) (r : ContractState × Payment)
    (h : claim_bounty s env tOk id = .ok r) :
    r.1.bounty_count = s.bounty_count := by
  unfold claim_bounty at h
  simp only [] at h
  repeat' split at h
  any_goals exact Except.noConfusion h
  injection h with h1
  subst h1; rfl

/-- A successful `refund_bounty` leaves the counter unchanged. -/
theorem refund_bounty_count (s : ContractState) (env : Env) (tOk : Bool)
    (id : Nat) (r : ContractState × Payment)
    (h : refund_bounty s env tOk id = .ok r) :
    r.1.bounty_count = s.bounty_count := by
  unfold refund_bounty at h
  simp only [] at h
  repeat' split at h
  any_goals exact Except.noConfusion h
  injection h with h1
  subst h1; rfl

/-- A successful `auto_refund` leaves the counter unchanged. -/
theorem auto_refund_count (s : ContractState) (env : Env) (tOk : Bool)
    (id : Nat) (r : ContractState × Payment)
    (h : auto_refund s env tOk id = .ok r) :
    r.1.bounty_count = s.bounty_count := by
  unfold auto_refund at h
  simp only [] at h
  repeat' split at h
  any_goals exact Except.noConfusion h
  injection h with h1
  subst h1; rfl

/-- The ids handed out by a run of successful creates are consecutive,
starting at the pre-state's counter. -/
theorem runCreates_ids (cs : List CreateCtx) :
    ∀ (s sF : ContractState) (ids : List Nat),
      runCreates s cs = some (sF, ids) →
      ids = List.range' s.bounty_count cs.length := by
  induction cs with
  | nil =>
    intro s sF ids h
    simp only [runCreates, Option.some.injEq, Prod.mk.injEq] at h
    simp [h.2.symm]
  | cons c rest ih =>
    intro s sF ids h
    simp only [runCreates] at h
    rcases hc : create_bounty s c with e | r
    · rw [hc] at h; exact Option.noConfusion h
    · obtain ⟨sMid, id⟩ := r
      rw [hc] at h
      simp only [] at h
      rcases hr : runCreates sMid rest with _ | r2
      · rw [hr] at h; exact Option.noConfusion h
      · obtain ⟨s3, ids'⟩ := r2
        rw [hr] at h
        simp only [] at h
        injection h with h'
        injection h' with h1 h2
        obtain ⟨hid, hcnt⟩ := create_bounty_count s c sMid id hc
        have hrec := ih sMid s3 ids' hr
        subst h2
        rw [List.length_cons, List.range'_succ, hid, hrec, hcnt]

/-- C1: the claim says at most one of reject/claim/refund/auto_refund ever
succeeds per bounty and a terminal record never triggers a second transfer.
The code violates it: after a successful manual refund of bounty 0 (one
escrow payment of 5 to the client), a second `refund_bounty` on the same
bounty succeeds again and issues a second payment of 5, because the status
write stores `itob(STATUS_REFUNDED)` whose leading byte is 0, so the
one-byte status field still reads `OPEN`. -/
theorem C1_second_refund_pays_again :
    create_bounty initState ctx0 = .ok (afterCreate, 0) ∧
    refund_bounty afterCreate ⟨addrC, 20⟩ true 0 = .ok (afterRefund, payC5) ∧
    refund_bounty afterRefund ⟨addrC, 30⟩ true 0 = .ok (afterRefund, payC5) :=
  ⟨rfl, rfl, rfl⟩

/-- C2: the claim says a record that reached a terminal status (here
`REFUNDED` via a successful `refund_bounty`) admits no further successful
operation.  The code violates it: after the refund the stored status byte
still reads `STATUS_OPEN`, and a later `accept_bounty` on the refunded
bounty succeeds. -/
theorem C2_accept_succeeds_after_refund :
    create_bounty initState ctx0 = .ok (afterCreate, 0) ∧
    refund_bounty afterCreate ⟨addrC, 20⟩ true 0 = .ok (afterRefund, payC5) ∧
    statusOf afterRefund 0 = some STATUS_OPEN ∧
    accept_bounty afterRefund ⟨addrW, 40⟩ 0 = .ok afterRefundAccept :=
  ⟨rfl, rfl, rfl, rfl⟩

/-- C3: for `reject_bounty` and `claim_bounty`, when every validation has
passed and the escrow transfer fails, the whole operation aborts with
`TransferFailed` and the caller-visible state is exactly the pre-state
(the all-or-nothing execution rolls back the status write). -/
theorem C3_transfer_failure_is_atomic :
    (∀ (s : ContractState) (env : Env) (id : Nat) (b : List Nat),
      getBox s.boxes (boxName id) = some b →
      120 ≤ b.length →
      (btoi (ext b 112 1) = STATUS_SUBMITTED ∨
        btoi (ext b 112 1) = STATUS_ACCEPTED) →
      (env.sender = ext b 0 32 ∨ env.sender = ext b 64 32) →
      0 < btoi (ext b 96 8) →
      reject_bounty s env false id = .error .transferFailed ∧
      stateOf s (reject_bounty s env false id) = s) ∧
    (∀ (s : ContractState) (env : Env) (id : Nat) (b : List Nat),
      getBox s.boxes (boxName id) = some b →
      120 ≤ b.length →
      btoi (ext b 112 1) = STATUS_APPROVED →
      env.sender = ext b 32 32 →
      0 < btoi (ext b 96 8) →
      claim_bounty s env false id = .error .transferFailed ∧
      stateOf s (claim_bounty s env false id) = s) := by
  constructor
  · intro s env id b hb hlen hst hsnd hamt
    have h113 : 113 ≤ b.length := by omega
    have h120 : 112 + (itob STATUS_REJECTED).length ≤ b.length := by
      simp only [itob, List.length]; omega
    have hr : reject_bounty s env false id = .error .transferFailed := by
      simp [reject_bounty, hb, h113, hst, hsnd, hamt, boxReplace, h120]
    exact ⟨hr, by rw [hr]; rfl⟩
  · intro s env id b hb hlen hst hsnd hamt
    have h113 : 113 ≤ b.length := by omega
    have h120 : 112 + (itob STATUS_CLAIMED).length ≤ b.length := by
      simp only [itob, List.length]; omega
    have hr : claim_bounty s env false id = .error .transferFailed := by
      simp [claim_bounty, hb, h113, hst, hsnd, hamt, boxReplace, h120]
    exact ⟨hr, by rw [hr]; rfl⟩

/-- C3 witness: the reject half at a concrete `ACCEPTED` record with the
verifier as caller, the claim half at a concrete `APPROVED` record with the
freelancer as caller. -/
theorem C3_transfer_failure_is_atomic_witness :
    (reject_bounty sAcc ⟨addrV, 20⟩ false 0 = .error .transferFailed ∧
     stateOf sAcc (reject_bounty sAcc ⟨addrV, 20⟩ false 0) = sAcc) ∧
    (claim_bounty sApp ⟨addrW, 20⟩ false 0 = .error .transferFailed ∧
     stateOf sApp (claim_bounty sApp ⟨addrW, 20⟩ false 0) = sApp) :=
  ⟨C3_transfer_failure_is_atomic.1 sAcc ⟨addrV, 20⟩ 0 boxAcc rfl (by decide)
      (by decide) (by decide) (by decide),
   C3_transfer_failure_is_atomic.2 sApp ⟨addrW, 20⟩ 0 boxApp rfl (by decide)
      (by decide) (by decide) (by decide)⟩

/-- C4: the claim (and the spec's round-trip property) says `create_bounty`
succeeds on any valid input including an empty `task_description` and the
stored layout round-trips every field.  The code violates it: with an empty
description the box is 113 bytes and the 8-byte write of
`itob(STATUS_OPEN)` at offset 112 runs past the end of the box, so the
whole creation aborts. -/
theorem C4_create_with_empty_description_aborts :
    create_bounty initState ctxEmpty = .error .outOfBounds :=
  rfl

/-- C5: the claim says the stored freelancer is the zero identifier iff the
stored status is `OPEN`.  The code violates it: after a successful
`accept_bounty` the freelancer field holds the worker's (non-zero) address
while the stored status byte still reads `STATUS_OPEN`. -/
theorem C5_freelancer_set_while_status_open :
    create_bounty initState ctx0 = .ok (afterCreate, 0) ∧
    accept_bounty afterCreate ⟨addrW, 40⟩ 0 = .ok afterAccept ∧
    freelancerOf afterAccept 0 = some addrW ∧
    addrW ≠ zero32 ∧
    statusOf afterAccept 0 = some STATUS_OPEN :=
  ⟨rfl, rfl, rfl, by decide, rfl⟩

/-- C6: the claim says `accept_bounty` modifies only the freelancer and
status fields.  The code violates it: the 8-byte `itob(STATUS_ACCEPTED)`
written at offset 112 overwrites bytes 113..119, i.e. the first seven bytes
of the stored task description, which changes from "ABCDEFG" to
`[0,0,0,0,0,0,1]`. -/
theorem C6_accept_overwrites_task_description :
    taskOf afterCreate 0 = some desc7 ∧
    accept_bounty afterCreate ⟨addrW, 40⟩ 0 = .ok afterAccept ∧
    taskOf afterAccept 0 = some [0, 0, 0, 0, 0, 0, 1] ∧
    desc7 ≠ [0, 0, 0, 0, 0, 0, 1] :=
  ⟨rfl, rfl, rfl, by decide⟩

/-- C7: the claim says a post-deadline `auto_refund` of a `SUBMITTED`
record succeeds, pays the client, and sets the status to `REFUNDED`; before
the deadline it fails with `DeadlineNotExpired`.  On a stored record with
status byte `SUBMITTED` the code indeed gates on the deadline and pays the
client (with no caller restriction — the caller here is the worker), but
the resulting stored status byte is `STATUS_OPEN`, not `STATUS_REFUNDED`,
because only the leading zero byte of `itob(STATUS_REFUNDED)` lands in the
status field. -/
theorem C7_auto_refund_leaves_status_open :
    auto_refund sSub ⟨addrW, 50⟩ true 0 = .error .deadlineNotExpired ∧
    statusOf sSub 0 = some STATUS_SUBMITTED ∧
    auto_refund sSub ⟨addrW, 100⟩ true 0 = .ok (sSubAfter, payC5) ∧
    statusOf sSubAfter 0 = some STATUS_OPEN ∧
    STATUS_OPEN ≠ STATUS_REFUNDED :=
  ⟨rfl, rfl, rfl, rfl, by decide⟩

/-- C8: every operation that takes a bounty id fails with `NotFound` on a
missing record, before any status or authorization check — no authorization
error is observable on a nonexistent id. -/
theorem C8_missing_record_fails_notFound_first :
    ∀ (s : ContractState) (env : Env) (tOk : Bool) (id : Nat),
      getBox s.boxes (boxName id) = none →
      accept_bounty s env id = .error .notFound ∧
      submit_bounty s env id = .error .notFound ∧
      approve_bounty s env id = .error .notFound ∧
      reject_bounty s env tOk id = .error .notFound ∧
      claim_bounty s env tOk id = .error .notFound ∧
      refund_bounty s env tOk id = .error .notFound ∧
      auto_refund s env tOk id = .error .notFound ∧
      get_bounty_info s id = .error .notFound := by
  intro s env tOk id h
  refine ⟨?_, ?_, ?_, ?_, ?_, ?_, ?_, ?_⟩ <;>
    simp [accept_bounty, submit_bounty, approve_bounty, reject_bounty,
          claim_bounty, refund_bounty, auto_refund, get_bounty_info, h]

/-- C8 witness: every id-taking operation on the empty initial state. -/
theorem C8_missing_record_fails_notFound_first_witness :
    accept_bounty initState ⟨addrW, 10⟩ 0 = .error .notFound ∧
    submit_bounty initState ⟨addrW, 10⟩ 0 = .error .notFound ∧
    approve_bounty initState ⟨addrW, 10⟩ 0 = .error .notFound ∧
    reject_bounty initState ⟨addrW, 10⟩ true 0 = .error .notFound ∧
    claim_bounty initState ⟨addrW, 10⟩ true 0 = .error .notFound ∧
    refund_bounty initState ⟨addrW, 10⟩ true 0 = .error .notFound ∧
    auto_refund initState ⟨addrW, 10⟩ true 0 = .error .notFound ∧
    get_bounty_info initState 0 = .error .notFound :=
  C8_missing_record_fails_notFound_first initState ⟨addrW, 10⟩ true 0 rfl

/-- C9: the counter starts at 0; a successful `create_bounty` returns the
pre-increment counter as the new id and increments the counter by one; no
other operation changes the counter; `get_bounty_count` is total and
returns the counter; and a run of n successful creates from the initial
state hands out exactly the ids 0..n-1. -/
theorem C9_counter_mints_sequential_ids :
    initState.bounty_count = 0 ∧
    (∀ s, get_bounty_count s = s.bounty_count) ∧
    (∀ s c s2 id, create_bounty s c = .ok (s2, id) →
      id = s.bounty_count ∧ s2.bounty_count = s.bounty_count + 1) ∧
    (∀ s env id s2, accept_bounty s env id = .ok s2 →
      s2.bounty_count = s.bounty_count) ∧
    (∀ s env id s2, submit_bounty s env id = .ok s2 →
      s2.bounty_count = s.bounty_count) ∧
    (∀ s env id s2, approve_bounty s env id = .ok s2 →
      s2.bounty_count = s.bounty_count) ∧
    (∀ s env tOk id r, reject_bounty s env tOk id = .ok r →
      r.1.bounty_count = s.bounty_count) ∧
    (∀ s env tOk id r, claim_bounty s env tOk id = .ok r →
      r.1.bounty_count = s.bounty_count) ∧
    (∀ s env tOk id r, refund_bounty s env tOk id = .ok r →
      r.1.bounty_count = s.bounty_count) ∧
    (∀ s env tOk id r, auto_refund s env tOk id = .ok r →
      r.1.bounty_count = s.bounty_count) ∧
    (∀ cs sF ids, runCreates initState cs = some (sF, ids) →
      ids = List.range cs.length) := by
  refine ⟨rfl, fun _ => rfl, create_bounty_count,
    fun s env id s2 h => accept_bounty_count s env id s2 h,
    fun s env id s2 h => submit_bounty_count s env id s2 h,
    fun s env id s2 h => approve_bounty_count s env id s2 h,
    fun s env tOk id r h => reject_bounty_count s env tOk id r h,
    fun s env tOk id r h => claim_bounty_count s env tOk id r h,
    fun s env tOk id r h => refund_bounty_count s env tOk id r h,
    fun s env tOk id r h => auto_refund_count s env tOk id r h,
    ?_⟩
  intro cs sF ids h
  have hr := runCreates_ids cs initState sF ids h
  rw [List.range_eq_range']
  exact hr

/-- C9 witness: one concrete create from the initial state. -/
theorem C9_counter_mints_sequential_ids_witness :
    (0 = initState.bounty_count ∧
     afterCreate.bounty_count = initState.bounty_count + 1) ∧
    ([0] : List Nat) = List.range 1 := by
  obtain ⟨-, -, hcreate, -, -, -, -, -, -, -, hrun⟩ :=
    C9_counter_mints_sequential_ids
  exact ⟨hcreate initState ctx0 afterCreate 0 rfl,
         hrun [ctx0] afterCreate [0] rfl⟩

/-- C10: at a current time equal to the stored deadline the record counts
as expired — `accept_bounty` and `refund_bounty` fail with their deadline
error while `auto_refund`'s time gate passes — and for every existing
non-terminal record and every current time exactly one of the manual and
automatic refund time gates holds. -/
theorem C10_deadline_boundary :
    (∀ (s : ContractState) (env : Env) (id : Nat) (b : List Nat),
      getBox s.boxes (boxName id) = some b →
      113 ≤ b.length →
      btoi (ext b 112 1) = STATUS_OPEN →
      env.now = btoi (ext b 104 8) →
      accept_bounty s env id = .error .deadlineExpired) ∧
    (∀ (s : ContractState) (env : Env) (tOk : Bool) (id : Nat) (b : List Nat),
      getBox s.boxes (boxName id) = some b →
      113 ≤ b.length →
      btoi (ext b 112 1) ≠ STATUS_CLAIMED →
      btoi (ext b 112 1) ≠ STATUS_REFUNDED →
      btoi (ext b 112 1) ≠ STATUS_REJECTED →
      env.now = btoi (ext b 104 8) →
      refund_bounty s env tOk id = .error .deadlineExpired) ∧
    (∀ (s : ContractState) (env : Env) (tOk : Bool) (id : Nat) (b : List Nat),
      getBox s.boxes (boxName id) = some b →
      113 ≤ b.length →
      btoi (ext b 112 1) ≠ STATUS_CLAIMED →
      btoi (ext b 112 1) ≠ STATUS_REFUNDED →
      btoi (ext b 112 1) ≠ STATUS_REJECTED →
      env.now = btoi (ext b 104 8) →
      auto_refund s env tOk id ≠ .error .deadlineNotExpired) ∧
    (∀ (s : ContractState) (env : Env) (tOk : Bool) (id : Nat) (b : List Nat),
      getBox s.boxes (boxName id) = some b →
      113 ≤ b.length →
      btoi (ext b 112 1) ≠ STATUS_CLAIMED →
      btoi (ext b 112 1) ≠ STATUS_REFUNDED →
      btoi (ext b 112 1) ≠ STATUS_REJECTED →
      (refund_bounty s env tOk id = .error .deadlineExpired ↔
        auto_refund s env tOk id ≠ .error .deadlineNotExpired)) := by
  refine ⟨?_, ?_, ?_, ?_⟩
  · intro s env id b hb hlen hst hnow
    simp [accept_bounty, hb, hlen, hst, hnow]
  · intro s env tOk id b hb hlen h4 h6 h5 hnow
    simp only [refund_bounty, hb]
    rw [if_pos hlen, if_pos h4, if_pos h6, if_pos h5, if_neg (by omega)]
  · intro s env tOk id b hb hlen h4 h6 h5 hnow
    simp only [auto_refund, hb]
    rw [if_pos hlen, if_pos h4, if_pos h6, if_pos h5, if_pos (by omega)]
    repeat' split
    all_goals simp
  · intro s env tOk id b hb hlen h4 h6 h5
    rcases Nat.lt_or_ge env.now (btoi (ext b 104 8)) with hlt | hge
    · have hr : refund_bounty s env tOk id ≠ .error .deadlineExpired := by
        simp only [refund_bounty, hb]
        rw [if_pos hlen, if_pos h4, if_pos h6, if_pos h5, if_pos hlt]
        repeat' split
        all_goals simp
      have ha : auto_refund s env tOk id = .error .deadlineNotExpired := by
        simp only [auto_refund, hb]
        rw [if_pos hlen, if_pos h4, if_pos h6, if_pos h5, if_neg (by omega)]
      constructor
      · intro hc; exact absurd hc hr
      · intro hc; exact absurd ha hc
    · have hr : refund_bounty s env tOk id = .error .deadlineExpired := by
        simp only [refund_bounty, hb]
        rw [if_pos hlen, if_pos h4, if_pos h6, if_pos h5, if_neg (by omega)]
      have ha : auto_refund s env tOk id ≠ .error .deadlineNotExpired := by
        simp only [auto_refund, hb]
        rw [if_pos hlen, if_pos h4, if_pos h6, if_pos h5, if_pos hge]
        repeat' split
        all_goals simp
      exact iff_of_true hr ha

/-- C10 witness: the freshly created record at current time 100, its exact
deadline. -/
theorem C10_deadline_boundary_witness :
    accept_bounty afterCreate ⟨addrW, 100⟩ 0 = .error .deadlineExpired ∧
    refund_bounty afterCreate ⟨addrC, 100⟩ true 0 = .error .deadlineExpired ∧
    auto_refund afterCreate ⟨addrW, 100⟩ true 0 ≠ .error .deadlineNotExpired ∧
    (refund_bounty afterCreate ⟨addrC, 100⟩ true 0 = .error .deadlineExpired ↔
      auto_refund afterCreate ⟨addrC, 100⟩ true 0 ≠ .error .deadlineNotExpired) := by
  obtain ⟨ha, hr, hg, hx⟩ := C10_deadline_boundary
  exact ⟨ha afterCreate ⟨addrW, 100⟩ 0 boxAC rfl (by decide) (by decide) (by decide),
         hr afterCreate ⟨addrC, 100⟩ true 0 boxAC rfl (by decide) (by decide)
            (by decide) (by decide) (by decide),
         hg afterCreate ⟨addrW, 100⟩ true 0 boxAC rfl (by decide) (by decide)
            (by decide) (by decide) (by decide),
         hx afterCreate ⟨addrC, 100⟩ true 0 boxAC rfl (by decide) (by decide)
            (by decide) (by decide)⟩

end AlgoEase
